import Mathlib

/-!
Shallow embedding of the `micropython-wifi` repository
(`src/wifi/wifi.py` and `src/wifi/wifi_configuration.py`) and proofs
about the claims of its specification.

Conventions of the embedding:

* Python values that can be a string, an integer or `None` are modelled
  by the inductive type `PyVal`.
* Python dicts with string keys are modelled by association lists
  (`Dict`), looked up by `dictGet`.
* The file system interaction of `WifiConfiguration.load` is modelled by
  a `FileResult`: either the parsed content of the file, or an `OSError`
  with its errno (`FileResult.failure errno`; errno `2` is "file does
  not exist").
* The radio of `Wifi.reconnect` is modelled as a pair of functions of
  the elapsed milliseconds since the start of the reconnect call
  (`Radio.isconnected`, `Radio.status`); each iteration of the polling
  loop advances elapsed time by the 50 ms of `await sleep_ms(50)`.
* The monitor loop of `Wifi.monitor` is modelled as a fold of an
  iteration step `monitorIter` over a schedule of body outcomes: each
  `BodyOutcome` says whether the body of that iteration of the `while`
  loop completed, raised an `Exception`, or observed a `CancelledError`
  at one of its internal suspension points. The `logs` field of the
  state records the handler logs of the `except` clauses; `sleeps`
  counts the `finally: await sleep_ms(sleep_millis)` suspensions.
* `Wifi.start` is modelled over the possible outcomes of its two
  awaited phases, each an `Except Fault`.
-/

/-! ### Python values, dicts -/

/-- A Python value as it appears in the wifi configuration dicts:
`None`, a string, or an integer. -/
inductive PyVal where
  | none : PyVal
  | str : String → PyVal
  | int : Int → PyVal
deriving DecidableEq, Repr

/-- A Python dict with string keys, as an association list. -/
def Dict : Type := List (String × PyVal)

instance : DecidableEq Dict := by
  unfold Dict
  infer_instance

instance : Repr Dict := by
  unfold Dict
  infer_instance

/-- Lookup of `key` in a dict; `Option.none` when the key is absent.
Both `key in config` and `config[key]` of the source go through this. -/
def dictGet : Dict → String → Option PyVal
  | [], _ => Option.none
  | (k, v) :: rest, key => if k = key then Option.some v else dictGet rest key

/-- Membership test `key in config` of the source. -/
def dictHas (d : Dict) (k : String) : Bool :=
  (dictGet d k).isSome

/-- Assignment `config[key] = v` of the source: replace the binding if
present, append it otherwise. -/
def dictSet : Dict → String → PyVal → Dict
  | [], k, v => [(k, v)]
  | (k1, v1) :: rest, k, v =>
      if k1 = k then (k, v) :: rest else (k1, v1) :: dictSet rest k v

/-! ### wifi_configuration.py -/

/-- Constant `NAME = const("wifi")` of `wifi_configuration.py`. -/
def NAME : String := "wifi"

/-- Constant `SSID = const("ssid")` of `wifi_configuration.py`. -/
def SSID : String := "ssid"

/-- Constant `PASSWORD = const("password")` of `wifi_configuration.py`. -/
def PASSWORD : String := "password"

/-- The attributes of a `WifiConfiguration` object set by `__init__`:
`ssid`, `password` and the fixed `filename`. -/
structure WifiConfiguration where
  ssid : PyVal
  password : PyVal
  filename : String
deriving DecidableEq, Repr

/-- Class attribute `properties = (SSID, PASSWORD)`. -/
def WifiConfiguration.properties : List String := [SSID, PASSWORD]

/-- `WifiConfiguration.__init__`: stores the credentials and sets
`self.filename = f"configuration/\x7bNAME\x7d.json"`. -/
def WifiConfiguration.mk0 (ssid password : PyVal) : WifiConfiguration :=
  { ssid := ssid, password := password,
    filename := "configuration/" ++ NAME ++ ".json" }

/-- `getattr(self, property_name)` as used by `to_dict`; only ever
invoked with a member of `properties`. -/
def WifiConfiguration.getattr (c : WifiConfiguration) (name : String) : PyVal :=
  if name = SSID then c.ssid
  else if name = PASSWORD then c.password
  else PyVal.none

/-- `setattr(self, property_name, value)` as used by `update`; only ever
invoked with a member of `properties`. -/
def WifiConfiguration.setattr (c : WifiConfiguration) (name : String) (v : PyVal) :
    WifiConfiguration :=
  if name = SSID then { c with ssid := v }
  else if name = PASSWORD then { c with password := v }
  else c

/-- `WifiConfiguration.to_dict`, exactly as written in the source:
starts from a fresh empty dict `config = dict()` and, for each property
name, copies the attribute into `config` only `if property_name in
config` — a membership test on the dict that was just created empty. -/
def WifiConfiguration.to_dict (c : WifiConfiguration) : Dict :=
  WifiConfiguration.properties.foldl
    (fun config property_name =>
      if dictHas config property_name
      then dictSet config property_name (c.getattr property_name)
      else config)
    []

/-- `WifiConfiguration.update(config)`: for each property name, if the
key is present in the given dict, assign its value to the attribute. -/
def WifiConfiguration.update (c : WifiConfiguration) (config : Dict) :
    WifiConfiguration :=
  WifiConfiguration.properties.foldl
    (fun acc property_name =>
      match dictGet config property_name with
      | Option.some v => acc.setattr property_name v
      | Option.none => acc)
    c

/-- The outcome of `open(self.filename)` followed by `json.load`:
either the parsed content, or an `OSError` carrying its errno
(errno 2 = the file does not exist). -/
inductive FileResult where
  | content : Dict → FileResult
  | failure : Int → FileResult
deriving DecidableEq, Repr

/-- `WifiConfiguration.save`: writes `self.to_dict()` to the path
`self.filename`. The result is the `(path, record)` pair written. -/
def WifiConfiguration.save (c : WifiConfiguration) : String × Dict :=
  (c.filename, c.to_dict)

/-- `WifiConfiguration.load`: on content, apply `update`; on an
`OSError` with errno 2 (missing file), `pass`; on any other `OSError`,
re-raise (modelled by `Except.error errno`). -/
def WifiConfiguration.load (c : WifiConfiguration) (r : FileResult) :
    Except Int WifiConfiguration :=
  match r with
  | FileResult.content d => Except.ok (c.update d)
  | FileResult.failure errno =>
      if errno = 2 then Except.ok c else Except.error errno

/-! ### wifi.py: country_code / power_mode setters -/

/-- A configuration call issued to the radio hardware:
`rp2.country(country_code)` or `wlan.config(pm=power_mode)`. -/
inductive RadioCall where
  | country : String → RadioCall
  | configPm : Int → RadioCall
deriving DecidableEq, Repr

/-- The mangled fields `self.__country_code` and `self.__power_mode` of
`Wifi`; both are initialised to `None` in `__init__`. -/
structure WifiSettings where
  country_code : Option String
  power_mode : Option Int
deriving DecidableEq, Repr

/-- The `country_code` setter of `Wifi`: `if self.__country_code !=
country_code`, store the new value and call `country(country_code)`;
otherwise do nothing. Returns the new state and the list of radio calls
issued. -/
def Wifi.set_country_code (s : WifiSettings) (c : String) :
    WifiSettings × List RadioCall :=
  if s.country_code ≠ Option.some c
  then ({ s with country_code := Option.some c }, [RadioCall.country c])
  else (s, [])

/-- The `power_mode` setter of `Wifi`: `if self.__power_mode !=
power_mode`, store the new value and call `self.wlan.config(pm=
power_mode)`; otherwise do nothing. -/
def Wifi.set_power_mode (s : WifiSettings) (p : Int) :
    WifiSettings × List RadioCall :=
  if s.power_mode ≠ Option.some p
  then ({ s with power_mode := Option.some p }, [RadioCall.configPm p])
  else (s, [])

/-! ### wifi.py: reconnect

The radio is modelled by the two observations the polling loop makes,
as functions of the milliseconds elapsed since the start of the
`reconnect` call; each pass through the loop body advances elapsed time
by the 50 ms of `await sleep_ms(50)`. -/

/-- The simulated radio: `wlan.isconnected()` and `wlan.status()` as
functions of the elapsed milliseconds since `start = ticks_ms()`. -/
structure Radio where
  isconnected : Nat → Bool
  status : Nat → Int

/-- The guard of the polling loop of `Wifi.reconnect`:
`not self.wlan.isconnected() and self.wlan.status() >= 0 and
ticks_diff(ticks_ms(), start) < timeout`. -/
def keepPolling (r : Radio) (timeout e : Nat) : Prop :=
  r.isconnected e = false ∧ 0 ≤ r.status e ∧ e < timeout

instance (r : Radio) (timeout e : Nat) : Decidable (keepPolling r timeout e) := by
  unfold keepPolling
  infer_instance

/-- The polling loop of `Wifi.reconnect`, with an explicit fuel bound:
while the guard holds, `await sleep_ms(50)` advances elapsed time by
50 ms. Returns the elapsed time at which the loop exits. The fuel is
only a termination device: `reconnectLoop_noFuelExit` shows the fuel
used by `reconnectElapsed` is never exhausted. -/
def reconnectLoop (r : Radio) (timeout : Nat) : Nat → Nat → Nat
  | 0, e => e
  | fuel + 1, e =>
      if keepPolling r timeout e
      then reconnectLoop r timeout fuel (e + 50)
      else e

/-- Elapsed time at which the polling loop of `reconnect(timeout)`
exits, counting from 0 at the `wlan.connect` call. `timeout / 50 + 1`
iterations always suffice, because the guard requires `e < timeout` and
every iteration adds 50 ms. -/
def reconnectElapsed (r : Radio) (timeout : Nat) : Nat :=
  reconnectLoop r timeout (timeout / 50 + 1) 0

/-- The boolean result of `reconnect(timeout)`:
`return self.wlan.isconnected()` evaluated after the loop exits. -/
def reconnectResult (r : Radio) (timeout : Nat) : Bool :=
  r.isconnected (reconnectElapsed r timeout)

/-! ### wifi.py: monitor loop -/

/-- A leveled log record emitted by the supervisor; only the level is
modelled. -/
inductive LogLevel where
  | trace
  | info
  | warning
  | error
deriving DecidableEq, Repr

/-- What happens in the `try` body of one iteration of the `while
self._running` loop of `Wifi.monitor`: the body (status check,
possible `reconnect`, possible callback) completes; or an `Exception`
escapes it (for example from `reconnect_callback` or
`failure_callback`); or a `CancelledError` is observed at one of the
suspension points inside it (the 50 ms polls of `reconnect`). -/
inductive BodyOutcome where
  | ok
  | raised
  | cancelled
deriving DecidableEq, Repr

/-- The observable state of a run of `Wifi.monitor`: the `_running`
flag, the number of completed loop iterations, the number of
`finally: await sleep_ms(sleep_millis)` suspensions performed, and the
handler logs emitted by the `except` clauses. -/
structure MonState where
  running : Bool
  iters : Nat
  sleeps : Nat
  logs : List LogLevel
deriving DecidableEq, Repr

/-- State on entry to `Wifi.monitor`: the first statement is
`self._running = True`. -/
def monitorInit : MonState :=
  { running := true, iters := 0, sleeps := 0, logs := [] }

/-- One pass of the `while self._running` loop of `Wifi.monitor`,
exactly as written in the source: if `_running` is false the loop does
not run; otherwise the body runs with outcome `ev`;
`except CancelledError` logs at info level, `except Exception` logs at
error level, and neither handler re-raises nor clears `_running`; the
`finally` clause then performs the `sleep_ms(sleep_millis)` suspension
and the loop condition is checked again. -/
def monitorIter (s : MonState) (ev : BodyOutcome) : MonState :=
  if s.running then
    let afterBody :=
      match ev with
      | BodyOutcome.ok => s
      | BodyOutcome.cancelled => { s with logs := s.logs ++ [LogLevel.info] }
      | BodyOutcome.raised => { s with logs := s.logs ++ [LogLevel.error] }
    { afterBody with sleeps := afterBody.sleeps + 1, iters := afterBody.iters + 1 }
  else s

/-- A run of `Wifi.monitor` over a schedule of body outcomes, one per
scheduler round. -/
def monitorRun (evs : List BodyOutcome) (s : MonState) : MonState :=
  evs.foldl monitorIter s

/-! ### wifi.py: start -/

/-- A fault escaping one of the two awaited phases of `Wifi.start`:
a `CancelledError`, or any other `Exception`. -/
inductive Fault where
  | cancelled
  | other
deriving DecidableEq, Repr

/-- The log level of the matching `except` clause of `Wifi.start`:
`except CancelledError` logs at info level, `except Exception` at error
level. -/
def faultLog : Fault → LogLevel
  | Fault.cancelled => LogLevel.info
  | Fault.other => LogLevel.error

/-- The `try` body of `Wifi.start`: `await self.connect(timeout)`
followed by `await self.monitor(...)`. Given the outcome of each phase
(`c` for connect, `m` for monitor), returns the outcome of the
sequence together with a flag recording whether the `monitor` call was
reached. The boolean returned by `connect` is discarded. -/
def startPhases (c : Except Fault Bool) (m : Except Fault Unit) :
    Except Fault Unit × Bool :=
  match c with
  | Except.ok _ => (m, true)
  | Except.error f => (Except.error f, false)

/-- `Wifi.start`: runs the two phases under the `try`; a
`CancelledError` is caught and logged at info level, any other
`Exception` is caught and logged at error level; in every case `start`
returns normally (the result is `Except.ok` with the handler logs). -/
def startRun (c : Except Fault Bool) (m : Except Fault Unit) :
    Except Fault (List LogLevel) :=
  match (startPhases c m).1 with
  | Except.ok _ => Except.ok []
  | Except.error f => Except.ok [faultLog f]

/-! ### Concrete instances used by the witnesses -/

/-- A fresh `WifiConfiguration()` with no credentials. -/
def cFresh : WifiConfiguration :=
  WifiConfiguration.mk0 PyVal.none PyVal.none

/-- A `WifiConfiguration("net", "secret")`. -/
def cNet : WifiConfiguration :=
  WifiConfiguration.mk0 (PyVal.str "net") (PyVal.str "secret")

/-- A radio that never connects and always reports status 0
(connection in progress, never an error). -/
def rIdle : Radio :=
  { isconnected := fun _ => false, status := fun _ => 0 }

/-- A radio that never connects and immediately reports the negative
status -1 (an unrecoverable connect failure). -/
def rBad : Radio :=
  { isconnected := fun _ => false, status := fun _ => -1 }

/-! ### Helper lemmas about the reconnect polling loop -/

/-- With enough fuel, the loop returns an elapsed time at which the
guard fails: the fuel is never what stops the loop. -/
theorem reconnectLoop_noFuelExit (r : Radio) (T : Nat) :
    ∀ fuel e, T ≤ e + 50 * fuel → ¬ keepPolling r T (reconnectLoop r T fuel e) := by
  intro fuel
  induction fuel with
  | zero =>
      intro e he
      simp only [reconnectLoop]
      rintro ⟨-, -, hlt⟩
      omega
  | succ n ih =>
      intro e he
      by_cases h : keepPolling r T e
      · simp only [reconnectLoop, if_pos h]
        exact ih (e + 50) (by omega)
      · simp only [reconnectLoop, if_neg h]
        exact h

/-- The loop overshoots the timeout by less than one 50 ms poll. -/
theorem reconnectLoop_lt (r : Radio) (T : Nat) :
    ∀ fuel e, e < T + 50 → reconnectLoop r T fuel e < T + 50 := by
  intro fuel
  induction fuel with
  | zero =>
      intro e he
      simpa only [reconnectLoop] using he
  | succ n ih =>
      intro e he
      by_cases h : keepPolling r T e
      · simp only [reconnectLoop, if_pos h]
        have heT : e < T := h.2.2
        exact ih (e + 50) (by omega)
      · simpa only [reconnectLoop, if_neg h] using he

/-- The guard fails at the elapsed time where `reconnect` stops
polling. -/
theorem reconnectElapsed_exit (r : Radio) (T : Nat) :
    ¬ keepPolling r T (reconnectElapsed r T) :=
  reconnectLoop_noFuelExit r T (T / 50 + 1) 0 (by omega)

/-- Starting from a poll instant `50 * k`, if the radio reports a
negative status at poll instant `50 * m` with `k ≤ m`, the loop stops
at some poll instant `50 * j` with `j ≤ m`: polling never proceeds past
the negative-status observation. -/
theorem reconnectLoop_negStatus (r : Radio) (T m : Nat)
    (hst : r.status (50 * m) < 0) :
    ∀ fuel k, k ≤ m → ∃ j, j ≤ m ∧ reconnectLoop r T fuel (50 * k) = 50 * j := by
  intro fuel
  induction fuel with
  | zero =>
      intro k hk
      exact ⟨k, hk, rfl⟩
  | succ n ih =>
      intro k hk
      by_cases h : keepPolling r T (50 * k)
      · have hkm : k < m := by
          rcases Nat.lt_or_ge k m with h1 | h1
          · exact h1
          · have hkeq : k = m := Nat.le_antisymm hk h1
            subst hkeq
            exact absurd h.2.1 (not_le.mpr hst)
        have h50 : 50 * k + 50 = 50 * (k + 1) := by ring
        simp only [reconnectLoop, if_pos h, h50]
        exact ih (k + 1) hkm
      · simp only [reconnectLoop, if_neg h]
        exact ⟨k, hk, rfl⟩

/-! ### Claim theorems -/

/-- C3: for every timeout `T > 0`, if the radio never reports connected
and its link status stays non-negative for the whole run, then
`reconnect(T)` returns false, and it returns only after at least `T`
milliseconds of elapsed time and no more than `T` plus one 50 ms poll
interval have passed. -/
theorem reconnect_times_out (r : Radio) (T : Nat) (hT : 0 < T)
    (hconn : ∀ e, r.isconnected e = false) (hstat : ∀ e, 0 ≤ r.status e) :
    reconnectResult r T = false ∧
      T ≤ reconnectElapsed r T ∧ reconnectElapsed r T ≤ T + 50 := by
  refine ⟨hconn _, ?_, ?_⟩
  · by_contra hlt
    exact reconnectElapsed_exit r T ⟨hconn _, hstat _, by omega⟩
  · have h := reconnectLoop_lt r T (T / 50 + 1) 0 (by omega)
    exact Nat.le_of_lt h

/-- Witness for C3 at the radio `rIdle` and timeout 120 ms: the loop
polls at 0, 50, 100 and exits at 150 ms with result false. -/
theorem reconnect_times_out_witness :
    reconnectResult rIdle 120 = false ∧
      120 ≤ reconnectElapsed rIdle 120 ∧ reconnectElapsed rIdle 120 ≤ 170 :=
  reconnect_times_out rIdle 120 (by decide) (fun _ => rfl) (fun _ => le_refl 0)

/-- C8: for every timeout `T`, if the radio reports a negative link
status at poll instant `50 * m < T` and has not reported connected up
to that instant, `reconnect(T)` stops polling at that observation at
the latest and returns false with elapsed time strictly less than
`T`. -/
theorem reconnect_fails_on_neg_status (r : Radio) (T m : Nat)
    (hm : 50 * m < T) (hst : r.status (50 * m) < 0)
    (hconn : ∀ j, j ≤ m → r.isconnected (50 * j) = false) :
    reconnectResult r T = false ∧
      reconnectElapsed r T ≤ 50 * m ∧ reconnectElapsed r T < T := by
  obtain ⟨j, hj, hje⟩ :=
    reconnectLoop_negStatus r T m hst (T / 50 + 1) 0 (Nat.zero_le m)
  have he : reconnectElapsed r T = 50 * j := hje
  have hle : reconnectElapsed r T ≤ 50 * m := by
    rw [he]
    exact Nat.mul_le_mul_left 50 hj
  refine ⟨?_, hle, lt_of_le_of_lt hle hm⟩
  unfold reconnectResult
  rw [he]
  exact hconn j hj

/-- Witness for C8 at the radio `rBad` (status -1 from the first poll)
and timeout 100 ms: the loop exits at the very first check, before any
sleep. -/
theorem reconnect_fails_on_neg_status_witness :
    reconnectResult rBad 100 = false ∧
      reconnectElapsed rBad 100 ≤ 50 * 0 ∧ reconnectElapsed rBad 100 < 100 :=
  reconnect_fails_on_neg_status rBad 100 0 (by decide) (by decide)
    (fun _ _ => rfl)

/-- C1: the code does not satisfy the claim. When a `CancelledError` is
observed inside the body of a monitor iteration, the `except
CancelledError` clause logs at info level as the claim says, but it
neither re-raises nor clears `_running`; the `finally` clause then
performs the post-iteration sleep and the loop runs a further
iteration. Concretely: a cancellation during iteration 1 still leaves
`running = true`, and after one more scheduler round the trace shows
2 completed iterations and 2 sleeps. -/
theorem monitor_continues_after_cancel :
    monitorRun [BodyOutcome.cancelled, BodyOutcome.ok] monitorInit =
      { running := true, iters := 2, sleeps := 2, logs := [LogLevel.info] } := by
  decide

/-- C5: if the body of a monitor iteration raises an `Exception` other
than a stop signal (including from inside a callback), it is caught at
the iteration boundary and logged at error level, the `finally` sleep
still occurs, `_running` stays true, and the next iteration executes
whatever its own outcome is. -/
theorem monitor_isolates_faults (s : MonState) (hs : s.running = true) :
    (monitorIter s BodyOutcome.raised).logs = s.logs ++ [LogLevel.error] ∧
      (monitorIter s BodyOutcome.raised).sleeps = s.sleeps + 1 ∧
      (monitorIter s BodyOutcome.raised).running = true ∧
      ∀ ev, (monitorIter (monitorIter s BodyOutcome.raised) ev).iters = s.iters + 2 := by
  refine ⟨?_, ?_, ?_, ?_⟩
  · simp [monitorIter, hs]
  · simp [monitorIter, hs]
  · simp [monitorIter, hs]
  · intro ev
    cases ev <;> simp [monitorIter, hs]

/-- Witness for C5 from the state at monitor entry: the fault of
iteration 1 is logged at error level and iteration 2 still runs. -/
theorem monitor_isolates_faults_witness :
    (monitorIter monitorInit BodyOutcome.raised).logs =
        monitorInit.logs ++ [LogLevel.error] ∧
      (monitorIter (monitorIter monitorInit BodyOutcome.raised)
          BodyOutcome.ok).iters = monitorInit.iters + 2 :=
  ⟨(monitor_isolates_faults monitorInit rfl).1,
   (monitor_isolates_faults monitorInit rfl).2.2.2 BodyOutcome.ok⟩

/-- C4: every fault escaping either phase of `start` — the initial
connect or the monitor loop — is caught by the handlers of `start` and
logged (info level for a cancellation, error level otherwise), and
`start` returns normally: the result of `startRun` is always
`Except.ok`, and is `Except.ok [faultLog f]` whenever phase one raised
`f`, or phase one returned and phase two raised `f`. -/
theorem start_never_raises (c : Except Fault Bool) (m : Except Fault Unit)
    (f : Fault) :
    (∃ l, startRun c m = Except.ok l) ∧
      (c = Except.error f → startRun c m = Except.ok [faultLog f]) ∧
      (∀ b, c = Except.ok b → m = Except.error f →
        startRun c m = Except.ok [faultLog f]) := by
  refine ⟨?_, ?_, ?_⟩
  · cases c with
    | ok b =>
        cases m with
        | ok u => exact ⟨[], rfl⟩
        | error g => exact ⟨[faultLog g], rfl⟩
    | error g => exact ⟨[faultLog g], rfl⟩
  · rintro rfl
    rfl
  · rintro b rfl rfl
    rfl

/-- Witness for C4: a cancellation raised by the connect phase makes
`start` return normally with a single info-level handler log. -/
theorem start_never_raises_witness :
    startRun (Except.error Fault.cancelled) (Except.ok ()) =
      Except.ok [faultLog Fault.cancelled] :=
  (start_never_raises (Except.error Fault.cancelled) (Except.ok ())
      Fault.cancelled).2.1 rfl

/-- C7: `start` runs the connect phase first and, whenever that phase
returns (with either boolean result), the monitor phase is entered; the
boolean outcome of the initial connect affects nothing that follows.
If the connect phase raises instead, the monitor phase is never
reached. -/
theorem start_enters_monitor_unconditionally (b b1 : Bool)
    (m : Except Fault Unit) :
    (startPhases (Except.ok b) m).2 = true ∧
      (∀ f, (startPhases (Except.error f) m).2 = false) ∧
      startPhases (Except.ok b) m = startPhases (Except.ok b1) m ∧
      startRun (Except.ok b) m = startRun (Except.ok b1) m :=
  ⟨rfl, fun _ => rfl, rfl, rfl⟩

/-- C6: assigning to `country_code` or `power_mode` a value equal to
the stored one performs no radio configuration call and leaves the
state unchanged; assigning a distinct value stores it and issues
exactly the one corresponding radio call; and immediately repeating an
assignment never issues a second call. -/
theorem setters_write_once (s : WifiSettings) (c : String) (p : Int) :
    (s.country_code = Option.some c → Wifi.set_country_code s c = (s, [])) ∧
      (s.country_code ≠ Option.some c →
        Wifi.set_country_code s c =
          ({ s with country_code := Option.some c }, [RadioCall.country c])) ∧
      (Wifi.set_country_code (Wifi.set_country_code s c).1 c =
        ((Wifi.set_country_code s c).1, [])) ∧
      (s.power_mode = Option.some p → Wifi.set_power_mode s p = (s, [])) ∧
      (s.power_mode ≠ Option.some p →
        Wifi.set_power_mode s p =
          ({ s with power_mode := Option.some p }, [RadioCall.configPm p])) ∧
      (Wifi.set_power_mode (Wifi.set_power_mode s p).1 p =
        ((Wifi.set_power_mode s p).1, [])) := by
  refine ⟨?_, ?_, ?_, ?_, ?_, ?_⟩
  · intro h
    simp [Wifi.set_country_code, h]
  · intro h
    simp [Wifi.set_country_code, h]
  · by_cases h : s.country_code = Option.some c <;>
      simp [Wifi.set_country_code, h]
  · intro h
    simp [Wifi.set_power_mode, h]
  · intro h
    simp [Wifi.set_power_mode, h]
  · by_cases h : s.power_mode = Option.some p <;>
      simp [Wifi.set_power_mode, h]

/-- Witness for C6: from the freshly constructed state (both fields
`None`), setting `country_code = "US"` issues one `country("US")`
call, and repeating the same assignment on the result issues none; the
same for `power_mode`. -/
theorem setters_write_once_witness :
    Wifi.set_country_code { country_code := Option.none, power_mode := Option.none } "US" =
      ({ country_code := Option.some "US", power_mode := Option.none },
        [RadioCall.country "US"]) ∧
      Wifi.set_power_mode { country_code := Option.some "US", power_mode := Option.some 1 } 1 =
        ({ country_code := Option.some "US", power_mode := Option.some 1 }, []) :=
  ⟨(setters_write_once
        { country_code := Option.none, power_mode := Option.none } "US" 1).2.1
      (by decide),
   (setters_write_once
        { country_code := Option.some "US", power_mode := Option.some 1 } "US" 1).2.2.2.1
      rfl⟩

/-- The membership guard of `to_dict` tests the dict it just created
empty, so `to_dict` returns the empty dict for every configuration. -/
theorem to_dict_eq_empty (c : WifiConfiguration) :
    WifiConfiguration.to_dict c = [] :=
  rfl

/-- C2: the code does not satisfy the claim. For the configuration with
ssid "net" and password "secret", `save` does write to the fixed path
`configuration/wifi.json`, but the record it writes is the empty dict
`\x7b\x7d` — `to_dict` copies an attribute only `if property_name in
config` where `config` is the dict it created empty one line earlier —
so a fresh configuration that loads the saved record keeps
`ssid = None` and `password = None`: nothing round-trips. -/
theorem save_writes_empty_record :
    WifiConfiguration.save cNet = ("configuration/wifi.json", []) ∧
      WifiConfiguration.load cFresh
          (FileResult.content (WifiConfiguration.save cNet).2) =
        Except.ok cFresh :=
  ⟨rfl, rfl⟩

/-- C9: when the configuration record is absent (`OSError` with
errno 2), `load` returns normally with the stored credentials
unchanged; any other storage fault (errno different from 2) propagates
to the caller. -/
theorem load_missing_file_ok (c : WifiConfiguration) (e : Int) (he : e ≠ 2) :
    WifiConfiguration.load c (FileResult.failure 2) = Except.ok c ∧
      WifiConfiguration.load c (FileResult.failure e) = Except.error e := by
  constructor
  · rfl
  · simp [WifiConfiguration.load, he]

/-- Witness for C9: a fresh configuration survives a missing file, and
a permission error (errno 13) propagates. -/
theorem load_missing_file_ok_witness :
    WifiConfiguration.load cFresh (FileResult.failure 2) = Except.ok cFresh ∧
      WifiConfiguration.load cFresh (FileResult.failure 13) = Except.error 13 :=
  load_missing_file_ok cFresh 13 (by decide)

/-- C10: for every dict passed to `update`, only the entries under the
keys "ssid" and "password" are applied; every other key is ignored, and
no attribute of the configuration other than `ssid` and `password` is
modified (`filename` is untouched). -/
theorem update_only_known_keys (c : WifiConfiguration) (d : Dict) :
    (c.update d).filename = c.filename ∧
      (c.update d).ssid = (dictGet d SSID).getD c.ssid ∧
      (c.update d).password = (dictGet d PASSWORD).getD c.password := by
  cases hs : dictGet d "ssid" <;> cases hp : dictGet d "password" <;>
    simp [WifiConfiguration.update, WifiConfiguration.properties,
      WifiConfiguration.setattr, SSID, PASSWORD, hs, hp]
